import Mathlib

/-!
# Inter-pod affinity plugin: construction and argument validation

A shallow embedding of `pkg/scheduler/framework/plugins/interpodaffinity/plugin.go`.

* Go `int32` values are embedded as `Int`. The file performs no arithmetic on them
  (only comparisons and a copy), so no wrap-around can occur; every statement below is
  proved for all integers and therefore for every `int32`.
* A nilable pointer or interface value is an `Option`; `none` is Go's `nil`.
* A Go `error` is embedded by the text its `Error()` method returns.
* `New` returns the Go pair `(framework.Plugin, error)` as a pair of options, together
  with the handle as the call leaves it.
* `SnapshotSharedLister()` is a method of an interface value, so two calls need not give
  the same answer: a handle is given by the answers it gives to successive calls, and
  every call uses one up.
-/

namespace interpodaffinity

/-! ## Values coming from outside the file -/

/-- A Go `error` value, identified by the message its `Error()` method yields. -/
structure GoError where
  msg : String
  deriving DecidableEq, Repr

/-- The serialized argument blob handed to a plugin factory (`runtime.Unknown`): the raw
bytes and their content type. The file never looks inside it; it is only passed on to
the decoder. -/
structure Unknown where
  Raw : List Nat
  ContentType : String
  deriving DecidableEq, Repr

/-- A `schedulerlisters.SharedLister` interface value, identified by the snapshot object
it refers to. -/
structure SharedLister where
  ref : Nat
  deriving DecidableEq, Repr

/-- The part of `framework.FrameworkHandle` that the file uses, the method
`SnapshotSharedLister()`: `answers k` is the lister (or `nil`) that the call number `k`
from now on returns. -/
structure FrameworkHandle where
  answers : Nat → Option SharedLister

/-- The call `h.SnapshotSharedLister()`: the answer and the handle afterwards. -/
def FrameworkHandle.SnapshotSharedLister (h : FrameworkHandle) :
    Option SharedLister × FrameworkHandle :=
  (h.answers 0, { answers := fun k => h.answers (k + 1) })

/-- The zero value of `sync.Mutex` is an unlocked mutex. -/
structure Mutex where
  state : Int := 0
  sema : Nat := 0
  deriving DecidableEq, Repr

/-! ## Formatting (`fmt.Errorf` restricted to the verb the file uses) -/

/-- Signed decimal rendering of an integer, as `%d` prints it. -/
def formatDecimal : Int → List Char
  | Int.ofNat n => (Nat.repr n).data
  | Int.negSucc n => '-' :: (Nat.repr (n + 1)).data

/-- Expansion of a format string: `%d` consumes the next operand and prints it in
decimal, `%%` prints a percent sign, every other character is copied. A `%d` with no
operand left prints `%!d(MISSING)`. -/
def sprintfChars : List Char → List Int → List Char
  | [], _ => []
  | '%' :: 'd' :: rest, a :: args => formatDecimal a ++ sprintfChars rest args
  | '%' :: 'd' :: rest, [] => "%!d(MISSING)".data ++ sprintfChars rest []
  | '%' :: '%' :: rest, args => '%' :: sprintfChars rest args
  | c :: rest, args => c :: sprintfChars rest args

/-- Formatted text, `fmt.Sprintf`. -/
def Sprintf (format : String) (args : List Int) : String :=
  String.mk (sprintfChars format.data args)

/-- An error carrying the formatted text, `fmt.Errorf`. -/
def Errorf (format : String) (args : List Int) : GoError :=
  { msg := Sprintf format args }

/-! ## The plugin file -/

/-- Name is the name of the plugin used in the plugin registry and configurations. -/
def Name : String := "InterPodAffinity"

def defaultHardPodAffinityWeight : Int := 1
def minHardPodAffinityWeight : Int := 0
def maxHardPodAffinityWeight : Int := 100

/-- Args holds the args that are used to configure the plugin. The weight is a
`*int32`: absent (`none`) or present. -/
structure Args where
  HardPodAffinityWeight : Option Int
  deriving DecidableEq, Repr

/-- InterPodAffinity is a plugin that checks inter pod affinity. -/
structure InterPodAffinity where
  sharedLister : Option SharedLister
  hardPodAffinityWeight : Int
  mutex : Mutex
  deriving DecidableEq, Repr

/-- Name returns name of the plugin. -/
def InterPodAffinity.Name (_pl : InterPodAffinity) : String :=
  interpodaffinity.Name

/-- The signature of `framework.DecodeInto(plArgs, args)`: it receives the (nilable)
blob and the argument struct to fill, and yields the struct as it leaves it together
with an error or `nil`. -/
abbrev Decoder := Option Unknown → Args → Args × Option GoError

def validateArgs (args : Args) : Option GoError :=
  match args.HardPodAffinityWeight with
  | none => none
  | some weight =>
    if weight < minHardPodAffinityWeight ∨ weight > maxHardPodAffinityWeight then
      some (Errorf "invalid args.hardPodAffinityWeight: %d, must be in the range %d-%d"
        [weight, minHardPodAffinityWeight, maxHardPodAffinityWeight])
    else
      none

/-- New initializes a new plugin and returns it. The decoder `framework.DecodeInto`
lives outside the file and is a parameter. The handle is called once for the nil check
and, on the success path, a second time for the value that is stored. -/
def New (DecodeInto : Decoder) (plArgs : Option Unknown) (h : FrameworkHandle) :
    (Option InterPodAffinity × Option GoError) × FrameworkHandle :=
  match h.SnapshotSharedLister with
  | (none, h1) => ((none, some (Errorf "SnapshotSharedlister is nil" [])), h1)
  | (some _, h1) =>
    match DecodeInto plArgs { HardPodAffinityWeight := none } with
    | (_, some err) => ((none, some err), h1)
    | (args, none) =>
      match validateArgs args with
      | some err => ((none, some err), h1)
      | none =>
        match h1.SnapshotSharedLister with
        | (lister, h2) =>
          let pl : InterPodAffinity :=
            { sharedLister := lister
              hardPodAffinityWeight := defaultHardPodAffinityWeight
              mutex := {} }
          match args.HardPodAffinityWeight with
          | some w => ((some { pl with hardPodAffinityWeight := w }, none), h2)
          | none => ((some pl, none), h2)

/-! ## Operations on a constructed instance, with the receiver made explicit -/

/-- The call `pl.Name()` on the pointer receiver `pl`: the returned string together with
the instance as the call leaves it. The body is `return Name`; it assigns to no field. -/
def InterPodAffinity.callName (pl : InterPodAffinity) : String × InterPodAffinity :=
  (pl.Name, pl)

/-- The operations the file defines on an `InterPodAffinity`. -/
inductive Op where
  | Name
  deriving DecidableEq, Repr

/-- One operation applied to an instance: what it returns and the instance afterwards. -/
def Op.apply : Op → InterPodAffinity → String × InterPodAffinity
  | Op.Name, pl => pl.callName

/-- The instance after a sequence of operations, applied in order. -/
def runOps : List Op → InterPodAffinity → InterPodAffinity
  | [], pl => pl
  | op :: ops, pl => runOps ops (op.apply pl).2

/-! ## Sample inputs -/

/-- A handle whose snapshot lister is the given value at every call. -/
def handleWith (l : Option SharedLister) : FrameworkHandle :=
  { answers := fun _ => l }

/-- A handle that gives the listed answers to its first calls and `nil` afterwards. -/
def handleSeq (ls : List (Option SharedLister)) : FrameworkHandle :=
  { answers := fun k => ls.getD k none }

/-- A decoder that stores the given weight and reports no error. -/
def decodeWeight (w : Option Int) : Decoder :=
  fun _ _ => ({ HardPodAffinityWeight := w }, none)

/-- A decoder that fails with the given error, leaving the struct as it received it. -/
def decodeFail (e : GoError) : Decoder :=
  fun _ args => (args, some e)

/-- A decoder that fails with the given error after having already stored a weight. -/
def decodePartly (w : Option Int) (e : GoError) : Decoder :=
  fun _ _ => ({ HardPodAffinityWeight := w }, some e)

/-- A blob with no bytes. -/
def emptyBlob : Unknown := { Raw := [], ContentType := "application/json" }

/-! ## Helper lemmas -/

/-- The text built by `formatDecimal` is the usual decimal rendering of the integer. -/
theorem formatDecimal_eq_toString (w : Int) : String.mk (formatDecimal w) = toString w := by
  cases w with
  | ofNat n => rfl
  | negSucc n => rfl

/-- The message produced for a rejected weight. -/
theorem validateArgs_format (w : Int) :
    Sprintf "invalid args.hardPodAffinityWeight: %d, must be in the range %d-%d"
        [w, minHardPodAffinityWeight, maxHardPodAffinityWeight]
      = "invalid args.hardPodAffinityWeight: " ++ toString w
          ++ ", must be in the range 0-100" := by
  rw [← formatDecimal_eq_toString]
  rfl

/-- The error built when the handle has no snapshot lister. -/
theorem errorf_snapshot_nil :
    Errorf "SnapshotSharedlister is nil" [] = { msg := "SnapshotSharedlister is nil" } := by
  rfl

/-- A present weight inside the range is accepted. -/
theorem validateArgs_in_range (w : Int) (h0 : 0 ≤ w) (h1 : w ≤ 100) :
    validateArgs { HardPodAffinityWeight := some w } = none := by
  have hn : ¬ (w < minHardPodAffinityWeight ∨ w > maxHardPodAffinityWeight) := by
    simp only [minHardPodAffinityWeight, maxHardPodAffinityWeight]
    omega
  simp only [validateArgs, if_neg hn]

/-- A present weight outside the range is rejected with the formatted error. -/
theorem validateArgs_out_of_range (w : Int) (h : w < 0 ∨ 100 < w) :
    validateArgs { HardPodAffinityWeight := some w } =
      some (Errorf "invalid args.hardPodAffinityWeight: %d, must be in the range %d-%d"
        [w, minHardPodAffinityWeight, maxHardPodAffinityWeight]) := by
  have hp : w < minHardPodAffinityWeight ∨ w > maxHardPodAffinityWeight := by
    simp only [minHardPodAffinityWeight, maxHardPodAffinityWeight]
    omega
  simp only [validateArgs, if_pos hp]

/-- Without a lister at the first call, `New` stops at its first check. -/
theorem New_of_nil (D : Decoder) (plArgs : Option Unknown) (h : FrameworkHandle)
    (hnil : h.answers 0 = none) :
    (New D plArgs h).1 = (none, some (Errorf "SnapshotSharedlister is nil" [])) := by
  simp only [New, FrameworkHandle.SnapshotSharedLister, hnil]

/-- With a lister at the first call, `New` continues with the decoder; the lister it
stores is the answer to the second call. -/
theorem New_of_lister (D : Decoder) (plArgs : Option Unknown) (h : FrameworkHandle)
    (l : SharedLister) (hl : h.answers 0 = some l) :
    (New D plArgs h).1 =
      match D plArgs { HardPodAffinityWeight := none } with
      | (_, some err) => (none, some err)
      | (args, none) =>
        match validateArgs args with
        | some err => (none, some err)
        | none =>
          (some { sharedLister := h.answers 1
                  hardPodAffinityWeight :=
                    args.HardPodAffinityWeight.getD defaultHardPodAffinityWeight
                  mutex := {} }, none) := by
  unfold New
  simp only [FrameworkHandle.SnapshotSharedLister, hl]
  rcases hd : D plArgs { HardPodAffinityWeight := none } with ⟨args, _ | err⟩
  · simp only
    cases hv : validateArgs args with
    | some err => rfl
    | none =>
      cases hw : args.HardPodAffinityWeight <;> simp [hw]
  · rfl

/-- The result of `New` is a plugin with no error, or no plugin with an error. -/
theorem New_shape (D : Decoder) (plArgs : Option Unknown) (h : FrameworkHandle) :
    (∃ pl, (New D plArgs h).1 = (some pl, none)) ∨
      (∃ e, (New D plArgs h).1 = (none, some e)) := by
  cases hl : h.answers 0 with
  | none => exact Or.inr ⟨_, New_of_nil D plArgs h hl⟩
  | some l =>
    rw [New_of_lister D plArgs h l hl]
    rcases D plArgs { HardPodAffinityWeight := none } with ⟨args, _ | err⟩
    · simp only
      cases validateArgs args with
      | some err => exact Or.inr ⟨err, rfl⟩
      | none => exact Or.inl ⟨_, rfl⟩
    · exact Or.inr ⟨err, rfl⟩

/-- When `New` returns a plugin: the first call gave a lister, decoding and validation
passed. -/
theorem New_ok_iff (D : Decoder) (plArgs : Option Unknown) (h : FrameworkHandle) :
    (∃ pl, (New D plArgs h).1 = (some pl, none)) ↔
      ∃ l, h.answers 0 = some l ∧
        (D plArgs { HardPodAffinityWeight := none }).2 = none ∧
        validateArgs (D plArgs { HardPodAffinityWeight := none }).1 = none := by
  cases hl : h.answers 0 with
  | none =>
    rw [New_of_nil D plArgs h hl]
    simp
  | some l =>
    rw [New_of_lister D plArgs h l hl]
    rcases D plArgs { HardPodAffinityWeight := none } with ⟨args, _ | err⟩
    · simp only
      cases validateArgs args with
      | some err => simp
      | none => simp
    · simp

/-- The fields of a plugin that `New` returned: the lister is the answer to the second
call, the weight is the decoded one or the default. -/
theorem New_fields (D : Decoder) (plArgs : Option Unknown) (h : FrameworkHandle)
    (pl : InterPodAffinity) (hnew : (New D plArgs h).1 = (some pl, none)) :
    pl.sharedLister = h.answers 1 ∧
      pl.hardPodAffinityWeight =
        (D plArgs { HardPodAffinityWeight := none }).1.HardPodAffinityWeight.getD
          defaultHardPodAffinityWeight := by
  cases hl : h.answers 0 with
  | none =>
    rw [New_of_nil D plArgs h hl] at hnew
    simp at hnew
  | some l =>
    rw [New_of_lister D plArgs h l hl] at hnew
    rcases hd : D plArgs { HardPodAffinityWeight := none } with ⟨args, _ | err⟩
    · rw [hd] at hnew
      simp only at hnew
      cases hv : validateArgs args with
      | some err => rw [hv] at hnew; simp at hnew
      | none =>
        rw [hv] at hnew
        simp only [Prod.mk.injEq, Option.some.injEq, and_true] at hnew
        subst hnew
        exact ⟨rfl, rfl⟩
    · rw [hd] at hnew
      simp at hnew

/-- What `New` returns depends on the handle only through the answers to the two calls
it can make. -/
theorem New_result_congr (D : Decoder) (plArgs : Option Unknown) (h h2 : FrameworkHandle)
    (e0 : h2.answers 0 = h.answers 0) (e1 : h2.answers 1 = h.answers 1) :
    (New D plArgs h2).1 = (New D plArgs h).1 := by
  cases hl : h.answers 0 with
  | none => rw [New_of_nil D plArgs h hl, New_of_nil D plArgs h2 (e0.trans hl)]
  | some l =>
    rw [New_of_lister D plArgs h l hl, New_of_lister D plArgs h2 l (e0.trans hl), e1]

/-- An accepted `Args` resolves to a weight inside the range. -/
theorem validateArgs_accepts_getD (args : Args) (hv : validateArgs args = none) :
    0 ≤ args.HardPodAffinityWeight.getD defaultHardPodAffinityWeight ∧
      args.HardPodAffinityWeight.getD defaultHardPodAffinityWeight ≤ 100 := by
  obtain ⟨aw⟩ := args
  cases aw with
  | none => simp [defaultHardPodAffinityWeight]
  | some w =>
    by_contra hc
    have hout : w < 0 ∨ 100 < w := by
      simp only [Option.getD_some] at hc
      omega
    rw [validateArgs_out_of_range w hout] at hv
    exact absurd hv (by simp)

/-- The operations leave the instance as it was. -/
theorem runOps_id (ops : List Op) (pl : InterPodAffinity) : runOps ops pl = pl := by
  induction ops with
  | nil => rfl
  | cons op rest ih =>
    cases op
    simpa [runOps, Op.apply, InterPodAffinity.callName] using ih

/-! ## The claims -/

/-- C1: for a present weight `w`, `validateArgs` returns no error if and only if
`0 ≤ w ≤ 100`, both bounds included. -/
theorem validateArgs_ok_iff (w : Int) :
    validateArgs { HardPodAffinityWeight := some w } = none ↔ 0 ≤ w ∧ w ≤ 100 := by
  constructor
  · intro hv
    by_contra hc
    have hout : w < 0 ∨ 100 < w := by omega
    rw [validateArgs_out_of_range w hout] at hv
    exact absurd hv (by simp)
  · rintro ⟨h0, h1⟩
    exact validateArgs_in_range w h0 h1

/-- C2: for every `Args` whose weight is absent, `validateArgs` returns no error. -/
theorem validateArgs_absent (args : Args) (habs : args.HardPodAffinityWeight = none) :
    validateArgs args = none := by
  simp only [validateArgs, habs]

theorem validateArgs_absent_witness :
    ({ HardPodAffinityWeight := none } : Args).HardPodAffinityWeight = none ∧
      validateArgs { HardPodAffinityWeight := none } = none :=
  ⟨rfl, validateArgs_absent { HardPodAffinityWeight := none } rfl⟩

/-- C3: when the handle's snapshot lister is nil at the check, `New` returns a nil
plugin and the missing-lister error for every decoder and every raw configuration: the
outcome does not depend on what decoding or validation would have produced. -/
theorem New_nil_lister (D : Decoder) (plArgs : Option Unknown) (h : FrameworkHandle)
    (hnil : h.SnapshotSharedLister.1 = none) :
    (New D plArgs h).1 = (none, some (Errorf "SnapshotSharedlister is nil" [])) :=
  New_of_nil D plArgs h hnil

theorem New_nil_lister_witness :
    (handleWith none).SnapshotSharedLister.1 = none ∧
      (New (decodeWeight (some 150)) (some emptyBlob) (handleWith none)).1 =
        (none, some (Errorf "SnapshotSharedlister is nil" [])) ∧
      (New (decodeFail { msg := "unexpected end of JSON input" }) none (handleWith none)).1 =
        (none, some (Errorf "SnapshotSharedlister is nil" [])) :=
  ⟨rfl, New_nil_lister _ _ _ rfl, New_nil_lister _ _ _ rfl⟩

/-- C4: with a lister present at the check, a configuration that decodes without error
to an `Args` accepted by `validateArgs` makes `New` return no error and an instance whose
weight is the decoded weight when present (zero included) and 1 when absent, and whose
lister is the one the handle returns when `New` asks for the value to store (the very
lister found at the check when the handle answers both calls alike). -/
theorem New_success (D : Decoder) (plArgs : Option Unknown) (h : FrameworkHandle)
    (l : SharedLister) (args : Args)
    (hl : h.SnapshotSharedLister.1 = some l)
    (hd : D plArgs { HardPodAffinityWeight := none } = (args, none))
    (hv : validateArgs args = none) :
    ∃ pl : InterPodAffinity, (New D plArgs h).1 = (some pl, none) ∧
      pl.sharedLister = h.SnapshotSharedLister.2.SnapshotSharedLister.1 ∧
      (h.SnapshotSharedLister.2.SnapshotSharedLister.1 = h.SnapshotSharedLister.1 →
        pl.sharedLister = some l) ∧
      (∀ w, args.HardPodAffinityWeight = some w → pl.hardPodAffinityWeight = w) ∧
      (args.HardPodAffinityWeight = none → pl.hardPodAffinityWeight = 1) := by
  rw [New_of_lister D plArgs h l hl, hd]
  simp only [hv]
  refine ⟨_, rfl, rfl, ?_, ?_, ?_⟩
  · intro hsame
    exact hsame.trans hl
  · intro w hw
    simp [hw]
  · intro hw
    simp [hw, defaultHardPodAffinityWeight]

theorem New_success_witness :
    (handleWith (some ⟨7⟩)).SnapshotSharedLister.1 = some ⟨7⟩ ∧
      decodeWeight (some 0) (some emptyBlob) { HardPodAffinityWeight := none }
        = ({ HardPodAffinityWeight := some 0 }, none) ∧
      validateArgs { HardPodAffinityWeight := some 0 } = none ∧
      ∃ pl : InterPodAffinity,
        (New (decodeWeight (some 0)) (some emptyBlob) (handleWith (some ⟨7⟩))).1
          = (some pl, none) ∧
        pl.sharedLister
          = (handleWith (some ⟨7⟩)).SnapshotSharedLister.2.SnapshotSharedLister.1 ∧
        ((handleWith (some ⟨7⟩)).SnapshotSharedLister.2.SnapshotSharedLister.1
            = (handleWith (some ⟨7⟩)).SnapshotSharedLister.1 →
          pl.sharedLister = some ⟨7⟩) ∧
        (∀ w, ({ HardPodAffinityWeight := some 0 } : Args).HardPodAffinityWeight = some w →
          pl.hardPodAffinityWeight = w) ∧
        (({ HardPodAffinityWeight := some 0 } : Args).HardPodAffinityWeight = none →
          pl.hardPodAffinityWeight = 1) :=
  ⟨rfl, rfl, by decide,
    New_success (decodeWeight (some 0)) (some emptyBlob) (handleWith (some ⟨7⟩)) ⟨7⟩
      { HardPodAffinityWeight := some 0 } rfl rfl (by decide)⟩

/-- C5: with a lister present at the check, a configuration that decodes without error
to a present weight below 0 or above 100 makes `New` return a nil plugin together with
exactly the error `validateArgs` returns for the decoded `Args`, and that error is not
nil. -/
theorem New_invalid_weight (D : Decoder) (plArgs : Option Unknown) (h : FrameworkHandle)
    (l : SharedLister) (args : Args) (w : Int)
    (hl : h.SnapshotSharedLister.1 = some l)
    (hd : D plArgs { HardPodAffinityWeight := none } = (args, none))
    (hw : args.HardPodAffinityWeight = some w)
    (hout : w < 0 ∨ 100 < w) :
    (New D plArgs h).1 = (none, validateArgs args) ∧ validateArgs args ≠ none := by
  obtain ⟨aw⟩ := args
  simp only at hw
  subst hw
  rw [New_of_lister D plArgs h l hl, hd]
  simp [validateArgs_out_of_range w hout]

theorem New_invalid_weight_witness :
    ((New (decodeWeight (some 150)) (some emptyBlob) (handleWith (some ⟨7⟩))).1
        = (none, validateArgs { HardPodAffinityWeight := some 150 }) ∧
      validateArgs { HardPodAffinityWeight := some 150 } ≠ none) ∧
    ((New (decodeWeight (some (-5))) (some emptyBlob) (handleWith (some ⟨7⟩))).1
        = (none, validateArgs { HardPodAffinityWeight := some (-5) }) ∧
      validateArgs { HardPodAffinityWeight := some (-5) } ≠ none) :=
  ⟨New_invalid_weight (decodeWeight (some 150)) (some emptyBlob) (handleWith (some ⟨7⟩)) ⟨7⟩
      { HardPodAffinityWeight := some 150 } 150 rfl rfl rfl (Or.inr (by decide)),
   New_invalid_weight (decodeWeight (some (-5))) (some emptyBlob) (handleWith (some ⟨7⟩)) ⟨7⟩
      { HardPodAffinityWeight := some (-5) } (-5) rfl rfl rfl (Or.inl (by decide))⟩

/-- C6: for a present weight `w` below 0 or above 100, the error of `validateArgs` has
exactly the message `invalid args.hardPodAffinityWeight: <w>, must be in the range 0-100`,
where `<w>` is the signed decimal rendering of `w`. -/
theorem validateArgs_error_text (w : Int) (hout : w < 0 ∨ 100 < w) :
    validateArgs { HardPodAffinityWeight := some w } =
      some { msg := "invalid args.hardPodAffinityWeight: " ++ toString w
                      ++ ", must be in the range 0-100" } := by
  rw [validateArgs_out_of_range w hout, Errorf, validateArgs_format]

theorem validateArgs_error_text_witness :
    validateArgs { HardPodAffinityWeight := some 150 } =
        some { msg := "invalid args.hardPodAffinityWeight: 150, must be in the range 0-100" } ∧
      validateArgs { HardPodAffinityWeight := some (-5) } =
        some { msg := "invalid args.hardPodAffinityWeight: -5, must be in the range 0-100" } :=
  ⟨validateArgs_error_text 150 (Or.inr (by decide)),
   validateArgs_error_text (-5) (Or.inl (by decide))⟩

/-- C7: with a lister present at the check, when the decoder fails with error `e`,
`New` returns a nil plugin and that same error `e`, whatever the decoder left in the
argument struct: validation has no part in the outcome. -/
theorem New_decode_error (D : Decoder) (plArgs : Option Unknown) (h : FrameworkHandle)
    (l : SharedLister) (args : Args) (e : GoError)
    (hl : h.SnapshotSharedLister.1 = some l)
    (hd : D plArgs { HardPodAffinityWeight := none } = (args, some e)) :
    (New D plArgs h).1 = (none, some e) := by
  rw [New_of_lister D plArgs h l hl, hd]

theorem New_decode_error_witness :
    (New (decodePartly (some 150) { msg := "unexpected end of JSON input" }) (some emptyBlob)
        (handleWith (some ⟨7⟩))).1
      = (none, some { msg := "unexpected end of JSON input" }) :=
  New_decode_error (decodePartly (some 150) { msg := "unexpected end of JSON input" })
    (some emptyBlob) (handleWith (some ⟨7⟩)) ⟨7⟩ { HardPodAffinityWeight := some 150 }
    { msg := "unexpected end of JSON input" } rfl rfl

/-- C8: `Name()` returns the fixed, non-empty string `InterPodAffinity` (the constant
`Name`) for every instance, so it is the same across instances whatever their lister
and weight. -/
theorem Name_fixed (pl pl2 : InterPodAffinity) :
    pl.Name = "InterPodAffinity" ∧ pl.Name = Name ∧ pl.Name ≠ "" ∧ pl.Name = pl2.Name := by
  refine ⟨rfl, rfl, ?_, rfl⟩
  simp only [InterPodAffinity.Name, Name]
  decide


/-- C9, as stated, fails: called twice with the same decoder, the same configuration and
the same handle, `New` first succeeds and then fails, for a handle whose
`SnapshotSharedLister()` returns a lister at its first two calls and nil afterwards. -/
theorem New_twice_counterexample :
    (New (decodeWeight (some 50)) (some emptyBlob) (handleSeq [some ⟨7⟩, some ⟨7⟩])).1
      = (some ⟨some ⟨7⟩, 50, {}⟩, none) ∧
    (New (decodeWeight (some 50)) (some emptyBlob)
        (New (decodeWeight (some 50)) (some emptyBlob)
          (handleSeq [some ⟨7⟩, some ⟨7⟩])).2).1
      = (none, some { msg := "SnapshotSharedlister is nil" }) := by
  constructor <;> decide

/-- C9, amended: two successive calls of `New` with the same decoder, the same
configuration and the same handle either both fail with the same error or both succeed
with instances of equal weight and the same lister, provided the handle answers the two
`SnapshotSharedLister()` calls open to the second invocation as it answered those of the
first (as a handle does whose accessor returns the same value at every call). -/
theorem New_repeatable (D : Decoder) (plArgs : Option Unknown) (h : FrameworkHandle)
    (e0 : (New D plArgs h).2.answers 0 = h.answers 0)
    (e1 : (New D plArgs h).2.answers 1 = h.answers 1) :
    (∃ e, (New D plArgs h).1 = (none, some e) ∧
        (New D plArgs (New D plArgs h).2).1 = (none, some e)) ∨
    (∃ pl1 pl2, (New D plArgs h).1 = (some pl1, none) ∧
      (New D plArgs (New D plArgs h).2).1 = (some pl2, none) ∧
      pl1.hardPodAffinityWeight = pl2.hardPodAffinityWeight ∧
      pl1.sharedLister = pl2.sharedLister) := by
  have hsame : (New D plArgs (New D plArgs h).2).1 = (New D plArgs h).1 :=
    New_result_congr D plArgs h (New D plArgs h).2 e0 e1
  rw [hsame]
  rcases New_shape D plArgs h with ⟨pl, hp⟩ | ⟨e, he⟩
  · exact Or.inr ⟨pl, pl, hp, hp, rfl, rfl⟩
  · exact Or.inl ⟨e, he, he⟩

theorem New_repeatable_witness :
    (∃ e, (New (decodeWeight (some 50)) (some emptyBlob) (handleWith (some ⟨7⟩))).1
          = (none, some e) ∧
        (New (decodeWeight (some 50)) (some emptyBlob)
          (New (decodeWeight (some 50)) (some emptyBlob) (handleWith (some ⟨7⟩))).2).1
          = (none, some e)) ∨
    (∃ pl1 pl2,
      (New (decodeWeight (some 50)) (some emptyBlob) (handleWith (some ⟨7⟩))).1
        = (some pl1, none) ∧
      (New (decodeWeight (some 50)) (some emptyBlob)
        (New (decodeWeight (some 50)) (some emptyBlob) (handleWith (some ⟨7⟩))).2).1
        = (some pl2, none) ∧
      pl1.hardPodAffinityWeight = pl2.hardPodAffinityWeight ∧
      pl1.sharedLister = pl2.sharedLister) :=
  New_repeatable (decodeWeight (some 50)) (some emptyBlob) (handleWith (some ⟨7⟩)) rfl rfl

/-- C10, as stated, fails: with a nil lister and the empty configuration the message of
the error `New` returns is `SnapshotSharedlister is nil`, not `snapshot lister is nil`. -/
theorem nil_lister_text_counterexample :
    (handleWith none).SnapshotSharedLister.1 = none ∧
      (New (decodeWeight none) (some emptyBlob) (handleWith none)).1.2
        = some { msg := "SnapshotSharedlister is nil" } ∧
      (New (decodeWeight none) (some emptyBlob) (handleWith none)).1.2
        ≠ some { msg := "snapshot lister is nil" } := by
  refine ⟨rfl, by decide, by decide⟩

/-- C10, amended: when the handle's snapshot lister is nil at the check, `New` returns an
error and its message is `SnapshotSharedlister is nil`. -/
theorem nil_lister_error_text (D : Decoder) (plArgs : Option Unknown) (h : FrameworkHandle)
    (hnil : h.SnapshotSharedLister.1 = none) :
    ∃ e, (New D plArgs h).1.2 = some e ∧ e.msg = "SnapshotSharedlister is nil" := by
  rw [New_of_nil D plArgs h hnil]
  exact ⟨_, rfl, rfl⟩

theorem nil_lister_error_text_witness :
    ∃ e, (New (decodeWeight none) (some emptyBlob) (handleWith none)).1.2 = some e ∧
      e.msg = "SnapshotSharedlister is nil" :=
  nil_lister_error_text (decodeWeight none) (some emptyBlob) (handleWith none) rfl

/-- C11: the weight and the lister are read-only after construction: after any sequence
of the operations the file defines (`Name`), an instance that `New` returned still has
the lister the handle gave `New` to store and the weight `New` resolved (the decoded
weight if present, else the default), both equal to what they were when `New`
returned. -/
theorem fields_read_only (D : Decoder) (plArgs : Option Unknown) (h : FrameworkHandle)
    (pl : InterPodAffinity) (ops : List Op)
    (hnew : (New D plArgs h).1 = (some pl, none)) :
    (runOps ops pl).hardPodAffinityWeight = pl.hardPodAffinityWeight ∧
    (runOps ops pl).sharedLister = pl.sharedLister ∧
    (runOps ops pl).sharedLister = h.SnapshotSharedLister.2.SnapshotSharedLister.1 ∧
    (runOps ops pl).hardPodAffinityWeight =
      (D plArgs { HardPodAffinityWeight := none }).1.HardPodAffinityWeight.getD
        defaultHardPodAffinityWeight := by
  have hrun : runOps ops pl = pl := runOps_id ops pl
  rw [hrun]
  obtain ⟨hl, hw⟩ := New_fields D plArgs h pl hnew
  exact ⟨rfl, rfl, hl, hw⟩

theorem fields_read_only_witness :
    (runOps [Op.Name, Op.Name] ⟨some ⟨7⟩, 50, {}⟩).hardPodAffinityWeight = 50 ∧
    (runOps [Op.Name, Op.Name] ⟨some ⟨7⟩, 50, {}⟩).sharedLister = some ⟨7⟩ ∧
    (runOps [Op.Name, Op.Name] ⟨some ⟨7⟩, 50, {}⟩).sharedLister
      = (handleWith (some ⟨7⟩)).SnapshotSharedLister.2.SnapshotSharedLister.1 ∧
    (runOps [Op.Name, Op.Name] ⟨some ⟨7⟩, 50, {}⟩).hardPodAffinityWeight =
      (decodeWeight (some 50) (some emptyBlob)
        { HardPodAffinityWeight := none }).1.HardPodAffinityWeight.getD
        defaultHardPodAffinityWeight :=
  fields_read_only (decodeWeight (some 50)) (some emptyBlob) (handleWith (some ⟨7⟩))
    ⟨some ⟨7⟩, 50, {}⟩ [Op.Name, Op.Name] (by decide)

/-- C12, as stated, fails: for a handle whose `SnapshotSharedLister()` returns a lister
at the check and nil at the next call, `New` returns, without error, an instance whose
lister is nil. -/
theorem New_stores_nil_counterexample :
    (handleSeq [some ⟨7⟩, none]).SnapshotSharedLister.1 = some ⟨7⟩ ∧
    (New (decodeWeight none) (some emptyBlob) (handleSeq [some ⟨7⟩, none])).1
      = (some ⟨none, 1, {}⟩, none) ∧
    (⟨none, 1, {}⟩ : InterPodAffinity).sharedLister = none := by
  refine ⟨rfl, by decide, rfl⟩

/-- C12, amended: every instance `New` returns without error has a weight between 0 and
100, for every decoder, configuration and handle; and its lister is non-nil whenever the
handle's `SnapshotSharedLister()` also returns a lister at the second call `New` makes,
in particular whenever the handle answers that call as it answered the check. -/
theorem New_instance_invariant (D : Decoder) (plArgs : Option Unknown) (h : FrameworkHandle)
    (pl : InterPodAffinity) (hnew : (New D plArgs h).1 = (some pl, none)) :
    0 ≤ pl.hardPodAffinityWeight ∧ pl.hardPodAffinityWeight ≤ 100 ∧
      (h.SnapshotSharedLister.2.SnapshotSharedLister.1 ≠ none → pl.sharedLister ≠ none) ∧
      (h.SnapshotSharedLister.2.SnapshotSharedLister.1 = h.SnapshotSharedLister.1 →
        pl.sharedLister ≠ none) := by
  obtain ⟨l, hl, hd, hv⟩ := (New_ok_iff D plArgs h).1 ⟨pl, hnew⟩
  obtain ⟨hpl, hw⟩ := New_fields D plArgs h pl hnew
  refine ⟨?_, ?_, ?_, ?_⟩
  · rw [hw]; exact (validateArgs_accepts_getD _ hv).1
  · rw [hw]; exact (validateArgs_accepts_getD _ hv).2
  · intro hsome
    rw [hpl]
    exact hsome
  · intro hsame
    rw [hpl]
    have h1 : h.answers 1 = some l := hsame.trans hl
    rw [h1]
    simp

theorem New_instance_invariant_witness :
    0 ≤ (⟨some ⟨7⟩, 1, {}⟩ : InterPodAffinity).hardPodAffinityWeight ∧
      (⟨some ⟨7⟩, 1, {}⟩ : InterPodAffinity).hardPodAffinityWeight ≤ 100 ∧
      ((handleWith (some ⟨7⟩)).SnapshotSharedLister.2.SnapshotSharedLister.1 ≠ none →
        (⟨some ⟨7⟩, 1, {}⟩ : InterPodAffinity).sharedLister ≠ none) ∧
      ((handleWith (some ⟨7⟩)).SnapshotSharedLister.2.SnapshotSharedLister.1
          = (handleWith (some ⟨7⟩)).SnapshotSharedLister.1 →
        (⟨some ⟨7⟩, 1, {}⟩ : InterPodAffinity).sharedLister ≠ none) :=
  New_instance_invariant (decodeWeight none) (some emptyBlob) (handleWith (some ⟨7⟩))
    ⟨some ⟨7⟩, 1, {}⟩ (by decide)

/-- C13: `New` succeeds if and only if the handle's lister is non-nil at the check, the
configuration decodes without error and `validateArgs` accepts the decoded `Args`; and
`New` always returns either a non-nil plugin with a nil error or a nil plugin with a
non-nil error. -/
theorem New_success_iff (D : Decoder) (plArgs : Option Unknown) (h : FrameworkHandle) :
    ((∃ pl, (New D plArgs h).1 = (some pl, none)) ↔
      (h.SnapshotSharedLister.1 ≠ none ∧
        (D plArgs { HardPodAffinityWeight := none }).2 = none ∧
        validateArgs (D plArgs { HardPodAffinityWeight := none }).1 = none)) ∧
    (((New D plArgs h).1.1 ≠ none ∧ (New D plArgs h).1.2 = none) ∨
      ((New D plArgs h).1.1 = none ∧ (New D plArgs h).1.2 ≠ none)) := by
  refine ⟨?_, ?_⟩
  · rw [New_ok_iff]
    constructor
    · rintro ⟨l, hl, hd, hv⟩
      refine ⟨?_, hd, hv⟩
      have hl2 : h.SnapshotSharedLister.1 = some l := hl
      rw [hl2]
      simp
    · rintro ⟨hl, hd, hv⟩
      obtain ⟨l, hl2⟩ := Option.ne_none_iff_exists'.1 hl
      exact ⟨l, hl2, hd, hv⟩
  · rcases New_shape D plArgs h with ⟨pl, hp⟩ | ⟨e, he⟩
    · left; rw [hp]; simp
    · right; rw [he]; simp

end interpodaffinity
